import Mathlib

/-!
Verification of the WSS Node SDK event-envelope middleware
(`src/middleware.ts`, `src/manifest.ts`, `src/event.ts`).

The TypeScript source is shallowly embedded: JSON records become
association lists with last-write-wins lookup, JavaScript string
operations (`String.prototype.split(sep, 2)`, `indexOf(p) === 0`,
`toLowerCase`) are reproduced on `List Char`, and the two transport
adapters (`wssMiddleware`, `wssErrorMiddleware`, `wssPubSub`) become
functions from the inbound request/message plus an abstract plugin
handler to an explicit outcome datatype.
-/

set_option autoImplicit false

namespace WssSdk

/-! ## JavaScript string semantics -/

/-- Characters of a list up to (exclusive) the first `:`; the second
component is the remainder after that colon, or `none` when the list
holds no colon.  This is the building block of
`String.prototype.split(":", 2)`. -/
def takeUntilColon : List Char → List Char × Option (List Char)
  | [] => ([], none)
  | c :: cs =>
    if c = ':' then ([], some cs)
    else
      let r := takeUntilColon cs
      (c :: r.1, r.2)

/-- JavaScript `s.split(":", 2)` destructured as `const [k, v] = ...`:
`k` is the text before the first colon, `v` is the *segment between the
first and second colons* (everything after a second colon is discarded
by the limit argument), and `v` is `undefined` (`none`) when the string
has no colon at all. -/
def splitColon2 (s : String) : String × Option String :=
  match takeUntilColon s.data with
  | (a, none) => (⟨a⟩, none)
  | (a, some rest) => (⟨a⟩, some ⟨(takeUntilColon rest).1⟩)

/-- Boolean list-prefix test. -/
def isPfx : List Char → List Char → Bool
  | [], _ => true
  | _ :: _, [] => false
  | a :: as, b :: bs => a == b && isPfx as bs

/-- JavaScript `key.indexOf(p) === 0`: `p` occurs at the start of `key`. -/
def strStartsWith (p s : String) : Bool :=
  isPfx p.data s.data

/-- JavaScript `s.toLowerCase()` (ASCII range, as used by the SDK's
header constants). -/
def lowerStr (s : String) : String :=
  ⟨s.data.map Char.toLower⟩

/-! ## JavaScript object/record semantics

A plain JS object with string keys is an insertion-ordered list of
bindings; assignment appends (later assignments win on lookup). -/

/-- A JS record: insertion-ordered key/value bindings. -/
abbrev JsRec (α : Type) := List (String × α)

/-- Lookup; the *latest* binding for the key wins, `none` when the key
is absent (JS `undefined`). -/
def recGet {α : Type} : JsRec α → String → Option α
  | [], _ => none
  | p :: rest, k =>
    match recGet rest k with
    | some v => some v
    | none => if p.1 = k then some p.2 else none

/-- JS property assignment `obj[k] = v`. -/
def recSet {α : Type} (m : JsRec α) (k : String) (v : α) : JsRec α :=
  m ++ [(k, v)]

/-- JS truthiness of an optional string: `undefined` and `""` are falsy. -/
def truthyStr : Option String → Bool
  | none => false
  | some s => !(s == "")

/-! ## Protocol constants -/

/-- From `src/manifest.ts`: the reserved manifest-request event name. -/
def ManifestEventName : String := "system.MANIFEST"

/-- Modelled from the spec: `src/http.ts` is not present under `src/`
(only its import sites are), so the attribute-header prefix constant is
taken from the spec and test examples (`x-wss-attrib-foo: foo:bar`). -/
def HeaderWssAttrib : String := "x-wss-attrib"

/-- Modelled from the spec: the event-correlation-id header / pub-sub
attribute name, whose presence marks event mode (`src/http.ts` is not
present under `src/`). -/
def HeaderWssEvent : String := "x-wss-event"

/-- Modelled from the spec: the protocol-version header echoed on every
event-mode response (`src/http.ts` is not present under `src/`). -/
def HeaderWssVersion : String := "x-wss-version"

/-- Modelled from the spec: the reserved JSON envelope key holding the
event (the spec scenario body is `{event: ..., pluginVersion: ...}`;
`src/http.ts` is not present under `src/`). -/
def JsonEventKey : String := "event"

/-- Modelled from the spec: the JSON body field carrying the caller's
plugin version (`src/http.ts` is not present under `src/`). -/
def JsonPluginVersion : String := "pluginVersion"

/-- Modelled from the spec: the pub-sub return-address attribute name
(`src/http.ts` is not present under `src/`). -/
def JsonReturnTopic : String := "returnTopic"

/-! ## Data model (`src/event.ts`, `src/manifest.ts`) -/

/-- An event as carried in the JSON envelope: the fixed fields of
`IEvent` plus opaque domain fields (e.g. `action`, `token`), all of
which are top-level properties of the JSON object. -/
structure Event where
  name : String
  errors : List String
  isPropagationStopped : Bool
  extra : JsRec String
deriving DecidableEq

/-- The `Event` class constructor: `errors = []`,
`isPropagationStopped = false`. -/
def Event.init (name : String) : Event :=
  { name := name, errors := [], isPropagationStopped := false, extra := [] }

/-- `stopPropagation()`: sets `isPropagationStopped = true` on the
object it is bound to. -/
def stopPropagation (e : Event) : Event :=
  { e with isPropagationStopped := true }

/-- `e.errors.push(s)`: appends one entry at the end of the errors
array. -/
def appendError (e : Event) (s : String) : Event :=
  { e with errors := e.errors ++ [s] }

/-- A plugin `Manifest` (subscription locators kept as opaque strings). -/
structure Manifest where
  manifestVersion : String
  name : String
  subsystem : String
  description : String
  version : String
  subscriptions : JsRec String
deriving DecidableEq

/-- The parsed JSON request/message body: the reserved envelope key
(`data[JsonEventKey]`, absent = JS `undefined`) and the plugin-version
field (`data[JsonPluginVersion]`). -/
structure Body where
  event : Option Event
  pluginVersion : Option String
deriving DecidableEq

/-- Result of calling the dispatch context's event accessor: JS either
throws or returns the event object. -/
inductive EventResult where
  | thrown (msg : String)
  | ok (e : Event)
deriving DecidableEq

/-! ## Dispatch context builder (`createWssFromRequest`) -/

/-- The `event()` accessor of `createWssFromRequest`.  The source
throws when `data[JsonEventKey]` is `undefined`; otherwise it builds
`const e = { ...data[JsonEventKey] }` — a *fresh shallow copy* of the
stored event on every call — rebinds `e.stopPropagation` to set the
copy's own `isPropagationStopped`, and returns the copy.  Because the
copy is a new object whose top-level properties are copied by value,
assignments a caller makes to the copy's top-level properties (every
`Event` field modelled here is a top-level property) are never written
back to `data[JsonEventKey]`; a later accessor call therefore returns
the original stored fields again. -/
def wssEvent (data : Body) : EventResult :=
  match data.event with
  | none => EventResult.thrown "This endpoint does not return an event."
  | some ev => EventResult.ok ev

/-- Attribute parsing of `createWssFromRequest`: for every key of the
`headers` record that starts with `HeaderWssAttrib.toLowerCase()`
(JS `key.indexOf(prefix) === 0`, a case-sensitive match against the
lower-cased constant), the *value* is split as
`const [k, v] = headers[key].split(":", 2)` and `attributes[k] = v`
is assigned. -/
def parseAttributes (headers : JsRec String) : JsRec (Option String) :=
  headers.foldl
    (fun acc kv =>
      if strStartsWith (lowerStr HeaderWssAttrib) kv.1 then
        recSet acc (splitColon2 kv.2).1 (splitColon2 kv.2).2
      else acc)
    []

/-- The per-invocation dispatch context (`Wss`).  The logger collaborator
(I/O only) and the `dispatch` hook (a no-op in the source) carry no
observable state and are omitted. -/
structure Wss where
  eventResult : EventResult
  attributes : JsRec (Option String)
  manifest : Manifest
  pluginVersion : Option String

/-- `createWssFromRequest(data, headers, manifest, args)`: binds the
event accessor to the payload, parses the attribute headers, and
carries the manifest and the payload's plugin version. -/
def createWssFromRequest (data : Body) (headers : JsRec String)
    (manifest : Manifest) : Wss :=
  { eventResult := wssEvent data
    attributes := parseAttributes headers
    manifest := manifest
    pluginVersion := data.pluginVersion }

/-! ## HTTP transport adapter (`wssMiddleware`) -/

/-- Observable behaviour of the plugin endpoint function invoked by the
`next()` call of `wssMiddleware` (the Express stage after this
middleware).  `mutate` is the transformation the handler applies to the
event copy it obtains from `req.wss.event()`; `sendsResponse` records
whether the handler sends a response of its own (making
`res.headersSent` true when the middleware resumes). -/
structure HttpHandler where
  mutate : Event → Event
  sendsResponse : Bool

/-- A value placed under the reserved envelope key of a response. -/
inductive EnvelopeValue where
  | ev (e : Event)
  | man (m : Manifest)
deriving DecidableEq

/-- Outcome of one `wssMiddleware` invocation. -/
inductive MwOutcome where
  /-- `next()` was called with no envelope processing (pass-through). -/
  | passThrough
  /-- `next(err)` was called with the given error message. -/
  | nextError (msg : String)
  /-- The manifest was returned: `res.header(HeaderWssEvent, corrId)`,
  `res.header(HeaderWssVersion, version)`,
  `res.json({[JsonEventKey]: m})`, handler never invoked. -/
  | manifestResponse (corrId version : String) (m : Manifest)
  /-- The handler ran via `next()` and then the middleware sent
  `res.json({[JsonEventKey]: e})` with the correlation and version
  headers. -/
  | eventResponse (corrId version : String) (e : Event)
  /-- The handler ran and sent its own response; the middleware's
  `res.headersSent` check skipped the automatic envelope response. -/
  | handlerSent
  /-- `req.wss.event()` threw at response-encoding time (unreachable
  when the envelope key was present at entry). -/
  | accessorRaised (msg : String)
deriving DecidableEq

/-- `req.header(name)`: Express matches header names
case-insensitively; Node presents `req.headers` keys lower-cased and
the modelled constants are lower-case, so the lookup is direct. -/
def reqHeader (headers : JsRec String) (name : String) : Option String :=
  recGet headers name

/-- One invocation of the Express middleware returned by
`wssMiddleware(manifest, args)`, applied to a request whose body has
already been parsed to structured `data` (the `JSON.parse` failure
branch forwards to `next(error)` before any of the logic modelled
here).  Control flow mirrors the source line by line:
1. build `req.wss` (always, before any mode check);
2. pass through when the `HeaderWssEvent` header is falsy (absent or
   empty) or a response was already sent;
3. `next(err)` when the envelope key is missing;
4. manifest short-circuit when the event name is the sentinel;
5. otherwise `next()` (the handler runs on its own copy of the event —
   see `wssEvent`: its writes are not visible in `data`), then, unless
   the handler sent a response, re-fetch `req.wss.event()` and send it
   with the correlation id and manifest version headers. -/
def wssMiddleware (manifest : Manifest) (headers : JsRec String)
    (data : Body) (headersSent : Bool) (h : HttpHandler) : MwOutcome :=
  match reqHeader headers HeaderWssEvent with
  | none => MwOutcome.passThrough
  | some messageId =>
    if messageId = "" then MwOutcome.passThrough
    else if headersSent then MwOutcome.passThrough
    else
      match data.event with
      | none => MwOutcome.nextError ("Body " ++ JsonEventKey ++ " not found in request.")
      | some ev =>
        if ev.name = ManifestEventName then
          MwOutcome.manifestResponse messageId manifest.version manifest
        else if h.sendsResponse then
          MwOutcome.handlerSent
        else
          match wssEvent data with
          | EventResult.thrown msg => MwOutcome.accessorRaised msg
          | EventResult.ok e => MwOutcome.eventResponse messageId manifest.version e

/-! ## HTTP error-handling stage (`wssErrorMiddleware`) -/

/-- A JavaScript `Error` as observed by the middleware: its `stack`
text (pushed by the HTTP error stage) and its `toString()` rendering
(pushed by the pub-sub catch). -/
structure ErrInfo where
  stack : String
  str : String
deriving DecidableEq

/-- Outcome of one `wssErrorMiddleware` invocation. -/
inductive ErrMwOutcome where
  /-- `next(err)` with no envelope involvement. -/
  | forward
  /-- `req.wss.event()` threw inside the error stage. -/
  | accessorRaised (msg : String)
  /-- `res.status(status)`, correlation and version headers set,
  `res.json({[JsonEventKey]: e})` sent, then `next(err)`. -/
  | errorResponse (status : Nat) (corrId version : String) (e : Event)
deriving DecidableEq

/-- One invocation of the error middleware returned by
`wssErrorMiddleware()`: forward when the correlation header is falsy or
a response was already sent; otherwise fetch a fresh event copy, push
`err.stack` onto its `errors`, and send it with status 500 and the
correlation/version headers, re-raising the error afterwards. -/
def wssErrorMiddleware (manifest : Manifest) (err : ErrInfo)
    (headers : JsRec String) (data : Body) (headersSent : Bool) : ErrMwOutcome :=
  match reqHeader headers HeaderWssEvent with
  | none => ErrMwOutcome.forward
  | some messageId =>
    if messageId = "" then ErrMwOutcome.forward
    else if headersSent then ErrMwOutcome.forward
    else
      match wssEvent data with
      | EventResult.thrown msg => ErrMwOutcome.accessorRaised msg
      | EventResult.ok e =>
        ErrMwOutcome.errorResponse 500 messageId manifest.version
          (appendError e err.stack)

/-! ## Pub/sub transport adapter (`wssPubSub`) -/

/-- Behaviour of the environment's `pubSub.topic(topic).publishJSON`
call for this invocation: it may throw synchronously while being set
up, or return a promise that later resolves with a message id or
rejects with an error. -/
inductive PublishBehavior where
  /-- `publish(values)` throws synchronously. -/
  | syncThrow (err : String)
  /-- The returned promise resolves with a message id. -/
  | resolves (msgId : String)
  /-- The returned promise rejects with an error. -/
  | rejects (err : String)
deriving DecidableEq

/-- Settled state of the promise returned by a publish call. -/
inductive PublishResult where
  | resolved (msgId : String)
  | rejected (err : String)
deriving DecidableEq

/-- Observable behaviour of the plugin pub-sub function `func`:
whether it throws (synchronously), and the value it returns (only
surfaced in pass-through mode, where the adapter returns it
unchanged).  Like the HTTP handler, it reads its own copy of the event
through `wss.event()`, so mutations it makes are not modelled as
reaching the stored payload. -/
structure PsHandler where
  throws : Option ErrInfo
  result : String

/-- An inbound pub-sub message: structured payload (`message.json`)
and attribute map (`message.attributes`). -/
structure PubSubMessage where
  json : Body
  attributes : JsRec String

/-- Outcome of one invocation of the function produced by
`wssPubSub(manifest)(func)`. -/
inductive PsOutcome where
  /-- Non-event traffic: `func`'s result returned unchanged, no
  envelope processing. -/
  | passThrough (result : String)
  /-- A synchronous error escaped to the caller (logged first in the
  missing-return-topic case: `wss.logger.error` receives the same
  message that is thrown). -/
  | raised (err : String)
  /-- `publishJSON({[JsonEventKey]: payload}, {[HeaderWssEvent]:
  corrId, [HeaderWssVersion]: version})` was called and its promise is
  what the invocation returns to the caller: `resolved` or `rejected`
  verbatim — a rejection is *not* intercepted by the source's
  `try`/`catch`, which only guards synchronous throws, and nothing is
  logged on that path. -/
  | published (payload : EnvelopeValue) (corrId version : String)
      (outcome : PublishResult)
  /-- `publish` threw synchronously: the `catch` logged the error and
  the invocation returned `undefined` (no value, no raise). -/
  | publishThrewSync (logged : String)
deriving DecidableEq

/-- The `publish(values)` step and the surrounding `try`/`catch` of the
source: a synchronous throw is caught and logged; an asynchronous
settlement travels back to the caller inside the returned promise. -/
def publishStep (payload : EnvelopeValue) (corrId version : String)
    (pub : PublishBehavior) : PsOutcome :=
  match pub with
  | PublishBehavior.syncThrow er => PsOutcome.publishThrewSync er
  | PublishBehavior.resolves r => PsOutcome.published payload corrId version (PublishResult.resolved r)
  | PublishBehavior.rejects er => PsOutcome.published payload corrId version (PublishResult.rejected er)

/-- One invocation of the pub-sub wrapper, mirroring the source:
1. build the `Wss` context from `message.json` and
   `message.attributes` (same `createWssFromRequest` as HTTP);
2. pass through, returning `func`'s result unchanged, when the
   `HeaderWssEvent` attribute is `undefined`;
3. log and throw when the `JsonReturnTopic` attribute is falsy;
4. manifest short-circuit: publish the manifest (the return address is
   split on `/` into endpoint, project and topic, which address the
   publish but do not appear in the outcome);
5. otherwise fetch the middleware's own event copy, call `func` with a
   `try`/`catch` that appends `error.toString()` to the copy's
   `errors`, and publish the copy.
Reading `.name` of a missing envelope value in step 4 is a runtime
`TypeError` (the source does not guard it). -/
def wssPubSub (manifest : Manifest) (msg : PubSubMessage)
    (func : PsHandler) (pub : PublishBehavior) : PsOutcome :=
  match recGet msg.attributes HeaderWssEvent with
  | none => PsOutcome.passThrough func.result
  | some messageId =>
    match recGet msg.attributes JsonReturnTopic with
    | none => PsOutcome.raised ("Request missing " ++ JsonReturnTopic)
    | some rt =>
      if rt = "" then PsOutcome.raised ("Request missing " ++ JsonReturnTopic)
      else
        match msg.json.event with
        | none => PsOutcome.raised "TypeError: cannot read name of undefined"
        | some ev =>
          if ev.name = ManifestEventName then
            publishStep (EnvelopeValue.man manifest) messageId manifest.version pub
          else
            match func.throws with
            | some err =>
              publishStep (EnvelopeValue.ev (appendError ev err.str))
                messageId manifest.version pub
            | none =>
              publishStep (EnvelopeValue.ev ev) messageId manifest.version pub

/-! ## Concrete fixtures (the test suite's request, `test/middleware.ts`) -/

/-- The test suite's manifest. -/
def m0 : Manifest :=
  { manifestVersion := "1.0"
    name := "CyberSourceIntegrationHttp"
    subsystem := "payments"
    description := ""
    version := "1.0"
    subscriptions := [("payment.PAYMENT_QUERY", "/payment-query")] }

/-- The test suite's inbound event: `{action: "token"}` under the
envelope key (with the fixed `IEvent` fields made explicit). -/
def ev0 : Event :=
  { name := "payment.PAYMENT_QUERY", errors := [],
    isPropagationStopped := false, extra := [("action", "token")] }

/-- The test suite's request body. -/
def body0 : Body := { event := some ev0, pluginVersion := some "1.0" }

/-- The test suite's headers (keys lower-cased as Node presents them). -/
def hdrs0 : JsRec String :=
  [(HeaderWssEvent, "1234"), (HeaderWssVersion, "1.0"),
   (HeaderWssAttrib ++ "-foo", "foo:bar"), (HeaderWssAttrib ++ "-bar", "bar:foo")]

/-- A handler that mutates the event copy it fetched (calling
`stopPropagation()` on it) and sends no response of its own — the
usage shown in the repository README. -/
def h0 : HttpHandler := { mutate := stopPropagation, sendsResponse := false }

/-- A pub-sub handler that neither throws nor does anything observable. -/
def psQuiet : PsHandler := { throws := none, result := "done" }

/-- An event-mode pub-sub message with a return address. -/
def msg0 : PubSubMessage :=
  { json := body0
    attributes := [(HeaderWssEvent, "1234"), (JsonReturnTopic, "api/proj/topic")] }

/-- An event-mode pub-sub message carrying one attribute header of the
shape documented in the source comment
(`x-wss-attrib-sessionid: sessionId:12345`). -/
def msgA : PubSubMessage :=
  { json := body0
    attributes := [(HeaderWssEvent, "1234"),
                   (JsonReturnTopic, "api/proj/topic"),
                   (HeaderWssAttrib ++ "-sessionid", "sessionId:12345")] }

/-- A pub-sub message carrying a single attribute entry, used to
exercise the attribute parser in isolation. -/
def msgA1 : PubSubMessage :=
  { json := body0
    attributes := [(HeaderWssAttrib ++ "-sessionid", "sessionId:12345")] }

/-- An inbound manifest-request event. -/
def evM : Event :=
  { name := ManifestEventName, errors := [], isPropagationStopped := false, extra := [] }

/-- A body carrying the manifest-request event. -/
def bodyM : Body := { event := some evM, pluginVersion := some "1.0" }

/-- An event-mode pub-sub manifest request with a return address. -/
def msgM : PubSubMessage :=
  { json := bodyM
    attributes := [(HeaderWssEvent, "1234"), (JsonReturnTopic, "api/proj/topic")] }

/-- An event-mode pub-sub message lacking the return-address attribute. -/
def msgNoRt : PubSubMessage :=
  { json := body0, attributes := [(HeaderWssEvent, "1234")] }

/-- A pass-through pub-sub message (no correlation attribute). -/
def msgP : PubSubMessage :=
  { json := body0, attributes := [("someAttr", "x")] }

/-- Pass-through HTTP headers (no correlation header). -/
def hdrsP : JsRec String := [("content-type", "application/json")]

/-- A handler failure as observed by the adapters. -/
def errB : ErrInfo := { stack := "Error: boom\n    at handler", str := "Error: boom" }

/-! ## Helper lemmas on the JavaScript string and record semantics -/

theorem takeUntilColon_of_not_mem (l : List Char) (h : ':' ∉ l) :
    takeUntilColon l = (l, none) := by
  induction l with
  | nil => rfl
  | cons c cs ih =>
    have hc : ¬ c = ':' := fun hc => h (hc ▸ List.mem_cons_self c cs)
    simp only [takeUntilColon, if_neg hc, ih (fun hm => h (List.mem_cons_of_mem c hm))]

theorem takeUntilColon_append_colon (l r : List Char) (h : ':' ∉ l) :
    takeUntilColon (l ++ ':' :: r) = (l, some r) := by
  induction l with
  | nil => simp [takeUntilColon]
  | cons c cs ih =>
    have hc : ¬ c = ':' := fun hc => h (hc ▸ List.mem_cons_self c cs)
    have ih' := ih (fun hm => h (List.mem_cons_of_mem c hm))
    simp only [List.cons_append, List.append_eq, takeUntilColon, if_neg hc]
    rw [ih']

theorem splitColon2_append (a b : String) (ha : ':' ∉ a.data) (hb : ':' ∉ b.data) :
    splitColon2 (a ++ ":" ++ b) = (a, some b) := by
  have hd : (a ++ ":" ++ b).data = a.data ++ ':' :: b.data := by
    simp [String.data_append]
  simp only [splitColon2, hd, takeUntilColon_append_colon a.data b.data ha,
    takeUntilColon_of_not_mem b.data hb]

theorem splitColon2_truncates (a b c : String) (ha : ':' ∉ a.data) (hb : ':' ∉ b.data) :
    splitColon2 (a ++ ":" ++ b ++ ":" ++ c) = (a, some b) := by
  have hd : (a ++ ":" ++ b ++ ":" ++ c).data = a.data ++ ':' :: (b.data ++ ':' :: c.data) := by
    simp [String.data_append]
  simp only [splitColon2, hd, takeUntilColon_append_colon a.data _ ha,
    takeUntilColon_append_colon b.data c.data hb]

theorem isPfx_self_append (p s : List Char) : isPfx p (p ++ s) = true := by
  induction p with
  | nil => rfl
  | cons c cs ih => simp [isPfx, ih]

theorem strStartsWith_self_append (p s : String) : strStartsWith p (p ++ s) = true := by
  simp [strStartsWith, String.data_append, isPfx_self_append]

theorem recGet_append_single {α : Type} (m : JsRec α) (k : String) (v : α) (k' : String) :
    recGet (m ++ [(k, v)]) k' = if k' = k then some v else recGet m k' := by
  induction m with
  | nil =>
    simp only [List.nil_append, recGet]
    by_cases h : k' = k
    · simp [h]
    · rw [if_neg h, if_neg (fun hk => h hk.symm)]
  | cons p rest ih =>
    simp only [List.cons_append, List.append_eq, recGet, ih]
    by_cases h : k' = k
    · subst h
      simp
    · simp only [if_neg h]

/-! ## Claim theorems -/

/-- Claim C1 (settled against the code: the code contradicts the
claim and its own README/intent).  In event mode the HTTP adapter's
automatic response does NOT carry the handler's mutations: the handler
obtained its own shallow copy from `req.wss.event()`, mutated that copy
(here it called `stopPropagation()`, setting the copy's top-level
`isPropagationStopped` to `true`), yet the middleware re-fetches a
fresh copy of the unchanged stored event and encodes that, so the
response event still has `isPropagationStopped = false` and none of the
handler's writes. -/
theorem C1_http_event_response_ignores_handler_mutation :
    wssMiddleware m0 hdrs0 body0 false h0 = MwOutcome.eventResponse "1234" "1.0" ev0
    ∧ (h0.mutate ev0).isPropagationStopped = true
    ∧ ev0.isPropagationStopped = false := by
  decide

/-- Claim C2: a decoded event named `system.MANIFEST` short-circuits
the handler on both transports.  The HTTP adapter responds with the
manifest itself under the envelope key, echoing the inbound
correlation id and the manifest version, for *every* handler `h`
(so the handler is never consulted); the pub-sub adapter publishes the
manifest with the same metadata for *every* handler `func`. -/
theorem C2_manifest_request_short_circuits_handler
    (m : Manifest) (headers : JsRec String) (data : Body) (mid rt : String)
    (ev : Event) (h : HttpHandler) (msg : PubSubMessage) (func : PsHandler)
    (pub : PublishBehavior)
    (hmid : reqHeader headers HeaderWssEvent = some mid) (hmid' : mid ≠ "")
    (hev : data.event = some ev) (hname : ev.name = ManifestEventName)
    (pmid : recGet msg.attributes HeaderWssEvent = some mid)
    (prt : recGet msg.attributes JsonReturnTopic = some rt) (hrt : rt ≠ "")
    (pev : msg.json.event = some ev) :
    wssMiddleware m headers data false h = MwOutcome.manifestResponse mid m.version m
    ∧ wssPubSub m msg func pub = publishStep (EnvelopeValue.man m) mid m.version pub := by
  constructor
  · unfold wssMiddleware
    rw [hmid]
    simp [hmid', hev, hname]
  · unfold wssPubSub
    rw [pmid, prt]
    simp [hrt, pev, hname]

/-- Claim C3 (settled against the code: the code contradicts the
claim and the evident intent of its own `try`/`catch`).  When the
outbound publish of the response event fails asynchronously (the
returned promise rejects), the pub-sub invocation does NOT complete
silently: the source's `try { return publish(e) } catch` only guards
synchronous throws, so the rejected promise is returned to the caller
— the invocation raises — and the `catch` logging never runs.  The
same holds for the manifest branch. -/
theorem C3_pubsub_publish_rejection_reaches_caller :
    wssPubSub m0 msg0 psQuiet (PublishBehavior.rejects "boom")
      = PsOutcome.published (EnvelopeValue.ev ev0) "1234" "1.0" (PublishResult.rejected "boom")
    ∧ wssPubSub m0 msgM psQuiet (PublishBehavior.rejects "boom")
      = PsOutcome.published (EnvelopeValue.man m0) "1234" "1.0" (PublishResult.rejected "boom") := by
  decide

/-- Claim C4, counterexample: for the pub-sub message attribute
`x-wss-attrib-sessionid: sessionId:12345` the adapter (which hands
`message.attributes` to the same `createWssFromRequest` as the HTTP
adapter) maps logical name `sessionId` — the part of the *value*
before the first colon — to `12345`, not the key's last segment
`sessionid` to the verbatim value as the claim states. -/
theorem C4_pubsub_attr_key_suffix_counterexample :
    recGet (createWssFromRequest msgA.json msgA.attributes m0).attributes "sessionId"
      = some (some "12345")
    ∧ recGet (createWssFromRequest msgA.json msgA.attributes m0).attributes "sessionid"
      = none := by
  decide

/-- Claim C4 as amended: the pub-sub adapter parses message attributes
with the exact parser of the HTTP variant — for an attribute whose key
begins with the (lower-cased) recognized prefix, matched
case-sensitively, the attribute's *value* is split on colons and the
logical name is the segment before the first colon, the mapped value
the segment between the first and second colons; the key's suffix is
ignored and the value is not taken verbatim.  A key whose casing
differs from the lower-cased prefix is not matched. -/
theorem C4_pubsub_attrs_parsed_from_value
    (msg : PubSubMessage) (m : Manifest) (sfx a v : String)
    (ha : ':' ∉ a.data) (hv : ':' ∉ v.data)
    (hmsg : msg.attributes = [(lowerStr HeaderWssAttrib ++ sfx, a ++ ":" ++ v)]) :
    (createWssFromRequest msg.json msg.attributes m).attributes = [(a, some v)]
    ∧ parseAttributes [("X-Wss-Attrib-foo", "foo:bar")] = [] := by
  constructor
  · simp only [createWssFromRequest, hmsg, parseAttributes, List.foldl,
      strStartsWith_self_append, if_pos, splitColon2_append a v ha hv, recSet,
      List.nil_append]
  · decide

/-- Claim C6, counterexample: the header value is split by
`split(":", 2)`, whose limit argument *discards* everything after the
second segment, so for `x-wss-attrib-url: url:http://cb` the mapped
value is `http`, not the entire right side `http://cb` as the claim
states. -/
theorem C6_http_attr_value_truncated_counterexample :
    parseAttributes [(HeaderWssAttrib ++ "-url", "url:http://cb")] = [("url", some "http")]
    ∧ ¬ recGet (parseAttributes [(HeaderWssAttrib ++ "-url", "url:http://cb")]) "url"
        = some (some "http://cb") := by
  decide

/-- Claim C6 as amended: for every header whose name begins with the
attribute prefix, the value is split on colons keeping at most two
segments — logical name = first segment, mapped value = second segment,
with anything after a second colon discarded; the example headers
`x-wss-attrib-foo: foo:bar` and `x-wss-attrib-bar: bar:foo` yield
`foo = bar` and `bar = foo`, and duplicate logical names overwrite in
header-iteration order. -/
theorem C6_http_attr_parsing_amended :
    (∀ sfx a v w : String, ':' ∉ a.data → ':' ∉ v.data →
      parseAttributes [(lowerStr HeaderWssAttrib ++ sfx, a ++ ":" ++ v ++ ":" ++ w)]
        = [(a, some v)])
    ∧ (recGet (parseAttributes hdrs0) "foo" = some (some "bar")
        ∧ recGet (parseAttributes hdrs0) "bar" = some (some "foo"))
    ∧ (∀ sfx1 sfx2 a v1 v2 : String, ':' ∉ a.data → ':' ∉ v1.data → ':' ∉ v2.data →
      recGet (parseAttributes
          [(lowerStr HeaderWssAttrib ++ sfx1, a ++ ":" ++ v1),
           (lowerStr HeaderWssAttrib ++ sfx2, a ++ ":" ++ v2)]) a
        = some (some v2)) := by
  refine ⟨?_, by decide, ?_⟩
  · intro sfx a v w ha hv
    simp only [parseAttributes, List.foldl, strStartsWith_self_append, if_pos,
      splitColon2_truncates a v w ha hv, recSet, List.nil_append]
  · intro sfx1 sfx2 a v1 v2 ha hv1 hv2
    simp only [parseAttributes, List.foldl, strStartsWith_self_append, if_pos,
      splitColon2_append a v1 ha hv1, splitColon2_append a v2 ha hv2, recSet,
      List.nil_append, List.cons_append]
    simp [recGet]

/-- Claim C5: an event-mode pub-sub message (correlation attribute
present) lacking the return-address attribute makes the invocation log
and throw `Request missing returnTopic` — for *every* handler `func`
and *every* publish behaviour `pub`, so the handler is never invoked
and no publish (partial or otherwise) is attempted. -/
theorem C5_missing_return_topic_aborts
    (m : Manifest) (msg : PubSubMessage) (func : PsHandler) (pub : PublishBehavior)
    (mid : String)
    (hmid : recGet msg.attributes HeaderWssEvent = some mid)
    (hrt : recGet msg.attributes JsonReturnTopic = none) :
    wssPubSub m msg func pub = PsOutcome.raised ("Request missing " ++ JsonReturnTopic) := by
  unfold wssPubSub
  rw [hmid, hrt]

/-- Claim C7: when the handler throws exactly once in event mode, the
event's `errors` gains exactly one entry — the failure's stack text on
HTTP, its `toString()` on pub-sub — appended at the end, so every prior
entry is preserved unchanged and in order, and the error-bearing event
is still sent (HTTP: status 500 with correlation and version headers;
pub-sub: the publish is still performed with the same metadata). -/
theorem C7_handler_error_appended_once
    (m : Manifest) (err errPs : ErrInfo) (headers : JsRec String) (data : Body)
    (mid rt r : String) (ev evPs : Event) (msg : PubSubMessage) (pub : PublishBehavior)
    (hmid : reqHeader headers HeaderWssEvent = some mid) (hmid' : mid ≠ "")
    (hev : data.event = some ev)
    (pmid : recGet msg.attributes HeaderWssEvent = some mid)
    (prt : recGet msg.attributes JsonReturnTopic = some rt) (hrt : rt ≠ "")
    (pev : msg.json.event = some evPs) (pname : evPs.name ≠ ManifestEventName) :
    wssErrorMiddleware m err headers data false
      = ErrMwOutcome.errorResponse 500 mid m.version (appendError ev err.stack)
    ∧ (appendError ev err.stack).errors = ev.errors ++ [err.stack]
    ∧ (appendError ev err.stack).errors.length = ev.errors.length + 1
    ∧ (appendError ev err.stack).errors.take ev.errors.length = ev.errors
    ∧ wssPubSub m msg { throws := some errPs, result := r } pub
      = publishStep (EnvelopeValue.ev (appendError evPs errPs.str)) mid m.version pub := by
  refine ⟨?_, rfl, by simp [appendError], by simp [appendError], ?_⟩
  · unfold wssErrorMiddleware
    rw [hmid]
    simp [hmid', wssEvent, hev]
  · unfold wssPubSub
    rw [pmid, prt]
    simp [hrt, pev, pname]

/-- Claim C8: pass-through mode.  An HTTP request whose correlation
header is absent (or whose response was already sent) continues to the
handler with no envelope processing, for every handler and every body;
a pub-sub message whose correlation attribute is absent invokes the
handler directly and returns its result unchanged, for every publish
behaviour — in both cases no manifest negotiation and no envelope
response occur (the `passThrough` outcomes carry none). -/
theorem C8_passthrough_no_envelope
    (m : Manifest) (headers : JsRec String) (data : Body) (headersSent : Bool)
    (h : HttpHandler) (msg : PubSubMessage) (func : PsHandler) (pub : PublishBehavior)
    (hhttp : reqHeader headers HeaderWssEvent = none ∨ headersSent = true)
    (hps : recGet msg.attributes HeaderWssEvent = none) :
    wssMiddleware m headers data headersSent h = MwOutcome.passThrough
    ∧ wssPubSub m msg func pub = PsOutcome.passThrough func.result := by
  constructor
  · rcases hhttp with hh | hh
    · unfold wssMiddleware
      rw [hh]
    · subst hh
      unfold wssMiddleware
      rcases hh : reqHeader headers HeaderWssEvent with _ | mid
      · rfl
      · by_cases hm : mid = "" <;> simp [hm]
  · unfold wssPubSub
    rw [hps]

/-- Claim C9: `isPropagationStopped` starts `false` on a freshly
constructed `Event`, one `stopPropagation()` makes it `true`, a second
leaves the event unchanged (idempotence), and no SDK operation resets
it: appending an error preserves the flag and the dispatch context's
accessor returns the stored event's fields unchanged. -/
theorem C9_stopPropagation_idempotent_monotone :
    (∀ n : String, (Event.init n).isPropagationStopped = false)
    ∧ (∀ e : Event, (stopPropagation e).isPropagationStopped = true)
    ∧ (∀ e : Event, stopPropagation (stopPropagation e) = stopPropagation e)
    ∧ (∀ (e : Event) (s : String),
        (appendError e s).isPropagationStopped = e.isPropagationStopped)
    ∧ (∀ (data : Body) (ev : Event), data.event = some ev →
        wssEvent data = EventResult.ok ev) := by
  refine ⟨fun n => rfl, fun e => rfl, fun e => rfl, fun e s => rfl, ?_⟩
  intro data ev hev
  simp [wssEvent, hev]

/-- Claim C10: the dispatch context's event accessor throws the error
`This endpoint does not return an event.` exactly when the payload
lacks the reserved envelope key; when the key is present every call
returns the event (on whose copy `stopPropagation` is live, setting
`isPropagationStopped`); and the accessor's behaviour is independent of
the transport headers — in particular the context built in pass-through
mode behaves the same way. -/
theorem C10_event_accessor_throws_iff_no_envelope
    (data : Body) (headers headers2 : JsRec String) (m : Manifest) :
    ((createWssFromRequest data headers m).eventResult
        = EventResult.thrown "This endpoint does not return an event."
      ↔ data.event = none)
    ∧ (∀ ev : Event, data.event = some ev →
        (createWssFromRequest data headers m).eventResult = EventResult.ok ev
        ∧ (stopPropagation ev).isPropagationStopped = true)
    ∧ (createWssFromRequest data headers m).eventResult
        = (createWssFromRequest data headers2 m).eventResult := by
  refine ⟨?_, ?_, rfl⟩
  · cases hev : data.event with
    | none => simp [createWssFromRequest, wssEvent, hev]
    | some ev => simp [createWssFromRequest, wssEvent, hev]
  · intro ev hev
    exact ⟨by simp [createWssFromRequest, wssEvent, hev], rfl⟩

/-! ## Witnesses: each hypothesis-bearing claim theorem applied at a
concrete input -/

/-- Witness for C2 at the test fixtures: manifest request over both
transports. -/
theorem C2_manifest_short_circuit_witness :
    reqHeader hdrs0 HeaderWssEvent = some "1234"
    ∧ (wssMiddleware m0 hdrs0 bodyM false h0 = MwOutcome.manifestResponse "1234" "1.0" m0
      ∧ wssPubSub m0 msgM psQuiet (PublishBehavior.resolves "ok")
          = publishStep (EnvelopeValue.man m0) "1234" "1.0" (PublishBehavior.resolves "ok")) :=
  ⟨by decide,
   C2_manifest_request_short_circuits_handler m0 hdrs0 bodyM "1234" "api/proj/topic" evM h0
     msgM psQuiet (PublishBehavior.resolves "ok") (by decide) (by decide) (by decide)
     (by decide) (by decide) (by decide) (by decide) (by decide)⟩

/-- Witness for the amended C4 at the source comment's example
attribute `x-wss-attrib-sessionid: sessionId:12345`. -/
theorem C4_pubsub_attrs_witness :
    (':' ∉ "sessionId".data)
    ∧ ((createWssFromRequest msgA1.json msgA1.attributes m0).attributes
        = [("sessionId", some "12345")]
      ∧ parseAttributes [("X-Wss-Attrib-foo", "foo:bar")] = []) :=
  ⟨by decide,
   C4_pubsub_attrs_parsed_from_value msgA1 m0 "-sessionid" "sessionId" "12345"
     (by decide) (by decide) (by decide)⟩

/-- Witness for C5 at a concrete event-mode message with no return
address. -/
theorem C5_missing_return_topic_witness :
    recGet msgNoRt.attributes HeaderWssEvent = some "1234"
    ∧ wssPubSub m0 msgNoRt psQuiet (PublishBehavior.resolves "ok")
        = PsOutcome.raised ("Request missing " ++ JsonReturnTopic) :=
  ⟨by decide,
   C5_missing_return_topic_aborts m0 msgNoRt psQuiet (PublishBehavior.resolves "ok") "1234"
     (by decide) (by decide)⟩

/-- Witness for the amended C6 at a colon-bearing value. -/
theorem C6_http_attr_parsing_witness :
    (':' ∉ "url".data)
    ∧ parseAttributes
        [(lowerStr HeaderWssAttrib ++ "-url", "url" ++ ":" ++ "http" ++ ":" ++ "//cb")]
        = [("url", some "http")] :=
  ⟨by decide,
   (C6_http_attr_parsing_amended).1 "-url" "url" "http" "//cb" (by decide) (by decide)⟩

/-- Witness for C7 at the test fixtures with a throwing handler. -/
theorem C7_handler_error_witness :
    reqHeader hdrs0 HeaderWssEvent = some "1234"
    ∧ (wssErrorMiddleware m0 errB hdrs0 body0 false
        = ErrMwOutcome.errorResponse 500 "1234" "1.0" (appendError ev0 errB.stack)
      ∧ (appendError ev0 errB.stack).errors = ev0.errors ++ [errB.stack]
      ∧ (appendError ev0 errB.stack).errors.length = ev0.errors.length + 1
      ∧ (appendError ev0 errB.stack).errors.take ev0.errors.length = ev0.errors
      ∧ wssPubSub m0 msg0 { throws := some errB, result := "done" }
          (PublishBehavior.resolves "ok")
          = publishStep (EnvelopeValue.ev (appendError ev0 errB.str)) "1234" "1.0"
              (PublishBehavior.resolves "ok")) :=
  ⟨by decide,
   C7_handler_error_appended_once m0 errB errB hdrs0 body0 "1234" "api/proj/topic" "done"
     ev0 ev0 msg0 (PublishBehavior.resolves "ok") (by decide) (by decide) (by decide)
     (by decide) (by decide) (by decide) (by decide) (by decide)⟩

/-- Witness for C8 at concrete pass-through traffic. -/
theorem C8_passthrough_witness :
    (reqHeader hdrsP HeaderWssEvent = none ∨ false = true)
    ∧ (wssMiddleware m0 hdrsP body0 false h0 = MwOutcome.passThrough
      ∧ wssPubSub m0 msgP psQuiet (PublishBehavior.resolves "ok")
          = PsOutcome.passThrough psQuiet.result) :=
  ⟨by decide,
   C8_passthrough_no_envelope m0 hdrsP body0 false h0 msgP psQuiet
     (PublishBehavior.resolves "ok") (by decide) (by decide)⟩

/-- Witness for C9 at the test body: the accessor returns the stored
event unchanged. -/
theorem C9_stopPropagation_witness :
    body0.event = some ev0 ∧ wssEvent body0 = EventResult.ok ev0 :=
  ⟨by decide, (C9_stopPropagation_idempotent_monotone).2.2.2.2 body0 ev0 (by decide)⟩

/-- Witness for C10 at the test body and headers. -/
theorem C10_event_accessor_witness :
    body0.event = some ev0
    ∧ ((createWssFromRequest body0 hdrs0 m0).eventResult = EventResult.ok ev0
      ∧ (stopPropagation ev0).isPropagationStopped = true) :=
  ⟨by decide,
   (C10_event_accessor_throws_iff_no_envelope body0 hdrs0 [] m0).2.1 ev0 (by decide)⟩

end WssSdk
